import Mathlib

/-!
Verification of the survey-analysis scripts.

This development gives a shallow embedding of the two analysis scripts,
needfinding_results.py and prototype_analysis.py, and proves the stated
properties of the specification against it.

Conventions used by the embedding:
- Python strings are Lean String values; all character-level work (lower
  casing, substring search, digit parsing) is done on the underlying
  List Char with structural recursion so that terms evaluate by rfl/decide.
- Python dicts are insertion-ordered association lists with distinct keys.
- Floating point quantities (p-values, means, statistics) are modelled as
  rationals; the IEEE value NaN, which arises only from 0/0 in this code,
  is modelled by Option with none standing for NaN.
- Library calls from scipy/numpy are modelled by their documented
  mathematical definitions; the chi-squared survival function that turns a
  statistic and degrees of freedom into a p-value is kept abstract as a
  function parameter, since the claims never depend on its values.
-/

/-- Membership test of a pattern at the head of a character list. -/
def leadMatch : List Char → List Char → Bool
  | [], _ => true
  | _ :: _, [] => false
  | p :: ps, c :: cs => p == c && leadMatch ps cs

/-- Occurrence of a pattern anywhere in a character list; models the
Python substring operator (pat in s). -/
def occursIn (p : List Char) : List Char → Bool
  | [] => leadMatch p []
  | c :: cs => leadMatch p (c :: cs) || occursIn p cs

/-- Substring test on strings: models the Python expression (pat in s). -/
def substrIn (pat s : String) : Bool := occursIn pat.data s.data

/-- Lower-cased character list of a string; models the Python method
s.lower() for the ASCII texts that appear in the scripts. -/
def pyLower (s : String) : List Char := s.data.map Char.toLower

/-- Models str.isdigit: nonempty and all characters are digits. -/
def isDigits (s : String) : Bool := !s.data.isEmpty && s.data.all Char.isDigit

/-- Value of a digit string, as computed by the Python int constructor on a
string that passed isdigit. -/
def digitsToNat (s : String) : ℕ := s.data.foldl (fun acc c => acc * 10 + (c.toNat - 48)) 0

/-! ### needfinding_results.py -/

/-- Mirrors identify_question_type: classifies a question text by
case-insensitive substring matching, checking the consent rule first, then
the three free-text phrases, then the select-all phrase, with
multiple_choice as the fallthrough. -/
def identify_question_type (text : String) : String :=
  let q : String := ⟨pyLower text⟩
  if substrIn "consent" q then "skip"
  else if substrIn "briefly describe" q
      || substrIn "if you selected \"other\"" q
      || substrIn "if you could magically conjure" q then "free_text"
  else if substrIn "select all that apply" q then "select_all"
  else "multiple_choice"

/-- Mirrors process_multiple_choice_question: keeps every answer that is
nonempty and whose lower case form is neither "n/a" nor "na".  The Counter
built by the source is the multiset of this list, so the total of the
recorded counts is the length of this list. -/
def process_multiple_choice_question (answers : List String) : List String :=
  answers.filter (fun a => !(a == "") && !(pyLower a == "n/a".data) && !(pyLower a == "na".data))

/-- Mirrors the total_responses expression of analyze_survey: the number of
answers that are nonempty and whose lower case form is none of "n/a", "na",
"none". -/
def totalResponses (answers : List String) : ℕ :=
  (answers.filter (fun a => !(a == "") && !(pyLower a == "n/a".data)
      && !(pyLower a == "na".data) && !(pyLower a == "none".data))).length

/-- The fixed trip-frequency bucket order of get_custom_order. -/
def tripsOrder : List String := ["0 trips", "1-2 trips", "3-5 trips", "6-10 trips", "11+ trips"]

/-- The fixed times-frequency bucket order of get_custom_order. -/
def timesOrder : List String := ["0 times", "1-2 times", "3-5 times", "6-10 times", "11+ times"]

/-- The fixed tool-consistency order of get_custom_order. -/
def toolsOrder : List String :=
  ["I use completely different tools/services/processes for different trips",
   "I mostly use different tools/services/processes for different trips",
   "Not really sure/It depends",
   "I mostly use the same tools/services/processes for both kinds of trips",
   "I use almost exactly the same tools/services/processes for both kinds of trips"]

/-- Mirrors get_custom_order: returns the fixed category order for
frequency-style and tool-consistency questions, none otherwise. -/
def get_custom_order (question_text : String) : Option (List String) :=
  let q : String := ⟨pyLower question_text⟩
  if substrIn "how many trips" q || substrIn "how many times" q then
    if substrIn "how many times" q || substrIn "away from your home city" q then
      some timesOrder
    else
      some tripsOrder
  else if substrIn "same basic tools/processes" q then some toolsOrder
  else none

/-- One step of the stable descending insertion used to model the Python
call sorted(data.items(), key count, reverse), which sorts by count
descending and keeps the original order of equal counts. -/
def insertDesc (x : String × ℕ) : List (String × ℕ) → List (String × ℕ)
  | [] => [x]
  | y :: ys => if y.2 ≤ x.2 then x :: y :: ys else y :: insertDesc x ys

/-- Stable sort of an association list by count, descending. -/
def sortedByCount (l : List (String × ℕ)) : List (String × ℕ) := l.foldr insertDesc []

/-- Mirrors order_data_for_chart on an insertion-ordered association list.
With a custom order and include_zeros on a frequency question, every
custom category appears with its count, defaulting to zero; otherwise the
custom categories present in the data come first and the remaining data
entries follow; without a custom order the data is sorted by count
descending. -/
def order_data_for_chart (data : List (String × ℕ)) (question_text : String)
    (include_zeros : Bool) : List (String × ℕ) :=
  match get_custom_order question_text with
  | some custom_order =>
    let q : String := ⟨pyLower question_text⟩
    if include_zeros && (substrIn "how many trips" q || substrIn "how many times" q) then
      custom_order.map (fun item => (item, (List.lookup item data).getD 0))
    else
      let first := custom_order.filterMap
        (fun item => (List.lookup item data).map (fun c => (item, c)))
      first ++ data.filter (fun kv => !((first.map Prod.fst).contains kv.1))
  | none => sortedByCount data

/-- Assignment to a key of an insertion-ordered dict: overwrites the value
if the key is present, otherwise appends the pair. -/
def dictSet (l : List (String × ℕ)) (k : String) (v : ℕ) : List (String × ℕ) :=
  if (l.map Prod.fst).contains k then
    l.map (fun kv => if kv.1 == k then (k, v) else kv)
  else l ++ [(k, v)]

/-- Mirrors the data preparation of create_pie_chart: orders the data
without zero filling, and when more than eight categories remain keeps the
top seven and collects the rest into the key "Other Categories" whenever
their total is positive.  The slices of the rendered pie are exactly the
entries of this list. -/
def create_pie_chart_data (data : List (String × ℕ)) (question_text : String) :
    List (String × ℕ) :=
  let sorted_data := order_data_for_chart data question_text false
  if 8 < sorted_data.length then
    let top_items := sorted_data.take 7
    let other_count := ((sorted_data.map Prod.snd).drop 7).sum
    if 0 < other_count then dictSet top_items "Other Categories" other_count else top_items
  else sorted_data

/-! ### prototype_analysis.py -/

/-- Mirrors the comprehension in get_likert_data that keeps the answers
passing isdigit and converts them with int. -/
def numeric_answers (answers : List String) : List ℕ :=
  (answers.filter (fun a => isDigits a)).map digitsToNat

/-- The parsed integer answers viewed as rational numbers, the form in
which numpy consumes them. -/
def toRatList (l : List ℕ) : List ℚ := l.map (fun n : ℕ => (n : ℚ))

/-- Models np.mean on a list of numbers. -/
def npMean (l : List ℚ) : ℚ := l.sum / l.length

/-- Models the square of np.std with ddof 1, that is the sample variance
with divisor length - 1, as computed in calculate_descriptive_stats.  On a
list with fewer than two elements numpy evaluates 0/0 and yields NaN,
modelled here by none.  The recorded std is the square root of this value,
so it is a well defined non-negative number exactly when this is a some
value that is non-negative. -/
def npSampleVar (l : List ℚ) : Option ℚ :=
  if 2 ≤ l.length then
    some ((l.map (fun x => (x - npMean l) ^ 2)).sum / ((l.length : ℚ) - 1))
  else none

/-- Statement that the std recorded by calculate_descriptive_stats is a
well defined non-negative number, phrased through the sample variance. -/
def stdNonneg (l : List ℚ) : Prop := ∃ v, npSampleVar l = some v ∧ 0 ≤ v

/-- The three prototypes compared by the script. -/
inductive Prototype where
  | A
  | B
  | C
deriving DecidableEq, Repr

/-- The fixed iteration order over the prototypes used throughout the
script. -/
def protoList : List Prototype := [Prototype.A, Prototype.B, Prototype.C]

/-- One row of the contingency table: the counts of the ratings 1 to 5 in
the Likert data of one prototype, mirroring the comprehension
data.count(i) for i in range(1, 6). -/
def likertRow (data : List ℤ) : Fin 5 → ℕ := fun i => data.count ((i : ℕ) + 1 : ℤ)

/-- Column sum of a contingency table, the total count of one rating
across the groups. -/
def colSum (rows : List (Fin 5 → ℕ)) (j : Fin 5) : ℕ := (rows.map (fun r => r j)).sum

/-- The rating columns kept by perform_chi_squared_omnibus: those whose
total count across groups is positive. -/
def nonZeroCols (rows : List (Fin 5 → ℕ)) : List (Fin 5) :=
  (List.finRange 5).filter (fun j => 0 < colSum rows j)

/-- Row total of the filtered contingency table. -/
def rowTotal (cols : List (Fin 5)) (r : Fin 5 → ℕ) : ℕ := (cols.map r).sum

/-- Grand total of the filtered contingency table. -/
def gridTotal (rows : List (Fin 5 → ℕ)) (cols : List (Fin 5)) : ℕ :=
  (rows.map (rowTotal cols)).sum

/-- Expected frequency of one cell under independence, as computed inside
scipy chi2_contingency: row total times column total over grand total. -/
def expectedFreq (rows : List (Fin 5 → ℕ)) (cols : List (Fin 5)) (r : Fin 5 → ℕ)
    (j : Fin 5) : ℚ :=
  (rowTotal cols r : ℚ) * (colSum rows j : ℚ) / (gridTotal rows cols : ℚ)

/-- Contribution of one row to the chi-squared statistic. -/
def rowContrib (rows : List (Fin 5 → ℕ)) (cols : List (Fin 5)) (r : Fin 5 → ℕ) : ℚ :=
  (cols.map (fun j =>
    ((r j : ℚ) - expectedFreq rows cols r j) ^ 2 / expectedFreq rows cols r j)).sum

/-- The chi-squared statistic of the filtered contingency table. -/
def chi2stat (rows : List (Fin 5 → ℕ)) (cols : List (Fin 5)) : ℚ :=
  (rows.map (rowContrib rows cols)).sum

/-- Models scipy.stats.chi2_contingency on the filtered table, returning
the statistic, the p-value and the degrees of freedom.  It fails with a
ValueError, modelled by none, exactly when the internally computed
expected-frequency table has a zero element, that is when some kept row or
column has total zero.  With zero degrees of freedom scipy returns
statistic 0 and p-value 1 without further computation; otherwise the
p-value is the chi-squared survival function pval of the statistic at the
given degrees of freedom, kept abstract since no claim depends on its
values.  The Yates continuity correction of scipy applies only at one
degree of freedom, which is impossible for the three-row tables built by
the script, and is therefore not modelled. -/
def chi2_contingency (pval : ℚ → ℕ → ℚ) (rows : List (Fin 5 → ℕ)) (cols : List (Fin 5)) :
    Option (ℚ × ℚ × ℕ) :=
  if rows.any (fun r => rowTotal cols r == 0) || cols.any (fun j => colSum rows j == 0) then
    none
  else
    let dof := (rows.length - 1) * (cols.length - 1)
    if dof = 0 then some (0, 1, 0)
    else some (chi2stat rows cols, pval (chi2stat rows cols) dof, dof)

/-- Result record of the omnibus step; chi2 is none when the source stores
np.nan, and note is the optional explanatory remark of the placeholder
branches. -/
structure OmnibusResult where
  chi2 : Option ℚ
  p_value : ℚ
  dof : ℕ
  significant : Bool
  contingency_table : List (Fin 5 → ℕ)
  note : Option String
deriving DecidableEq

/-- Mirrors the body of the per-question loop of
perform_chi_squared_omnibus on the Likert data of the three groups, given
in the order they are fed in as rows. -/
def omnibusFromGroups (pval : ℚ → ℕ → ℚ) (groups : List (List ℤ)) : OmnibusResult :=
  let table := groups.map likertRow
  let cols := nonZeroCols table
  if 0 < table.length * cols.length ∧ 0 < gridTotal table cols then
    match chi2_contingency pval table cols with
    | some (c, p, d) =>
      { chi2 := some c, p_value := p, dof := d, significant := decide (p < 1 / 20),
        contingency_table := table, note := none }
    | none =>
      { chi2 := none, p_value := 1, dof := 0, significant := false,
        contingency_table := table,
        note := some "Chi-squared test not applicable due to sparse data" }
  else
    { chi2 := none, p_value := 1, dof := 0, significant := false,
      contingency_table := table, note := some "No variation in data" }

/-- Mirrors perform_chi_squared_omnibus: one omnibus result per question,
in question order, with the groups fed in the fixed order A, B, C. -/
def perform_chi_squared_omnibus (pval : ℚ → ℕ → ℚ) (questions : List String)
    (ld : Prototype → String → List ℤ) : List (String × OmnibusResult) :=
  questions.map (fun q => (q, omnibusFromGroups pval (protoList.map (fun p => ld p q))))

/-- Result record of one pairwise Kolmogorov-Smirnov comparison. -/
structure PairwiseResult where
  ks_statistic : ℚ
  p_value : ℚ
  adjusted_p_value : ℚ
  significant : Bool
deriving DecidableEq

/-- The three group pairs compared by perform_pairwise_ks_tests. -/
def pairsList : List (Prototype × Prototype) :=
  [(Prototype.A, Prototype.B), (Prototype.A, Prototype.C), (Prototype.B, Prototype.C)]

/-- Mirrors the per-pair body of perform_pairwise_ks_tests: runs the
two-sample test ks, kept abstract, multiplies the raw p-value by three,
records the product capped at one, and flags significance by comparing the
uncapped product with 0.05. -/
def ks_pair_result (ks : List ℤ → List ℤ → ℚ × ℚ) (d1 d2 : List ℤ) : PairwiseResult :=
  { ks_statistic := (ks d1 d2).1, p_value := (ks d1 d2).2,
    adjusted_p_value := min ((ks d1 d2).2 * 3) 1,
    significant := decide ((ks d1 d2).2 * 3 < 1 / 20) }

/-- Mirrors perform_pairwise_ks_tests: a question receives an entry, with
the three pair comparisons, exactly when its omnibus result carries the
significance flag. -/
def perform_pairwise_ks_tests (ks : List ℤ → List ℤ → ℚ × ℚ)
    (ld : Prototype → String → List ℤ) (omnibus : List (String × OmnibusResult)) :
    List (String × List ((Prototype × Prototype) × PairwiseResult)) :=
  omnibus.filterMap (fun qr =>
    if qr.2.significant then
      some (qr.1, pairsList.map (fun pq => (pq, ks_pair_result ks (ld pq.1 qr.1) (ld pq.2 qr.1))))
    else none)

/-- Mirrors the per-prototype count of analyze_ranking_questions: the
number of answers containing the given name as a substring. -/
def countMentions (name : String) (answers : List String) : ℕ :=
  (answers.filter (fun a => substrIn name a)).length

/-- The three per-prototype counts of analyze_ranking_questions. -/
def ranking_counts (answers : List String) : ℕ × ℕ × ℕ :=
  (countMentions "Prototype A" answers, countMentions "Prototype B" answers,
   countMentions "Prototype C" answers)

/-- The total recorded as total_responses by analyze_ranking_questions:
the sum of the three per-prototype counts. -/
def ranking_total (answers : List String) : ℕ :=
  (ranking_counts answers).1 + (ranking_counts answers).2.1 + (ranking_counts answers).2.2

/-! ### Helper lemmas -/

lemma length_filter_eq_sum_ite {α : Type} (l : List α) (p : α → Bool) :
    (l.filter p).length = (l.map (fun a => if p a then 1 else 0)).sum := by
  induction l with
  | nil => rfl
  | cons x xs ih =>
    by_cases h : p x <;> simp [List.filter_cons, h, ih] <;> omega

lemma sum_map_add3 {α : Type} (l : List α) (f g h : α → ℕ) :
    (l.map f).sum + (l.map g).sum + (l.map h).sum
      = (l.map (fun a => f a + g a + h a)).sum := by
  induction l with
  | nil => rfl
  | cons x xs ih => simp only [List.map_cons, List.sum_cons]; omega

lemma dictSet_length_le (l : List (String × ℕ)) (k : String) (v : ℕ) :
    (dictSet l k v).length ≤ l.length + 1 := by
  unfold dictSet
  split <;> simp

lemma npMean_bounds (l : List ℚ) (hne : l ≠ []) (h : ∀ x ∈ l, 1 ≤ x ∧ x ≤ 5) :
    1 ≤ npMean l ∧ npMean l ≤ 5 := by
  have hlen : 0 < l.length := List.length_pos.mpr hne
  have hn : (0 : ℚ) < l.length := by exact_mod_cast hlen
  have hlow : (l.length : ℚ) * 1 ≤ l.sum := by
    have := List.card_nsmul_le_sum l 1 (fun x hx => (h x hx).1)
    simpa [nsmul_eq_mul] using this
  have hhigh : l.sum ≤ (l.length : ℚ) * 5 := by
    have := List.sum_le_card_nsmul l 5 (fun x hx => (h x hx).2)
    simpa [nsmul_eq_mul] using this
  constructor
  · rw [npMean, le_div_iff₀ hn]; linarith
  · rw [npMean, div_le_iff₀ hn]; linarith

lemma npSampleVar_nonneg (l : List ℚ) (h2 : 2 ≤ l.length) : stdNonneg l := by
  refine ⟨(l.map (fun x => (x - npMean l) ^ 2)).sum / ((l.length : ℚ) - 1), ?_, ?_⟩
  · simp [npSampleVar, h2]
  · apply div_nonneg
    · exact List.sum_nonneg (by
        intro x hx
        obtain ⟨y, _, rfl⟩ := List.mem_map.mp hx
        positivity)
    · have : (2 : ℚ) ≤ l.length := by exact_mod_cast h2
      linarith

lemma ks_pair_props (ks : List ℤ → List ℤ → ℚ × ℚ) (d1 d2 : List ℤ)
    (h0 : 0 ≤ (ks d1 d2).2) (h1 : (ks d1 d2).2 ≤ 1) :
    (ks_pair_result ks d1 d2).adjusted_p_value = min ((ks_pair_result ks d1 d2).p_value * 3) 1
    ∧ (ks_pair_result ks d1 d2).p_value ≤ (ks_pair_result ks d1 d2).adjusted_p_value
    ∧ (ks_pair_result ks d1 d2).adjusted_p_value ≤ 1
    ∧ ((ks_pair_result ks d1 d2).significant = true
        ↔ (ks_pair_result ks d1 d2).adjusted_p_value < 1 / 20) := by
  have hp : (ks_pair_result ks d1 d2).p_value = (ks d1 d2).2 := rfl
  have ha : (ks_pair_result ks d1 d2).adjusted_p_value = min ((ks d1 d2).2 * 3) 1 := rfl
  refine ⟨by rw [ha, hp], ?_, ?_, ?_⟩
  · rw [ha, hp]; exact le_min (by linarith) h1
  · rw [ha]; exact min_le_right _ _
  rw [ha]
  show decide ((ks d1 d2).2 * 3 < 1 / 20) = true ↔ min ((ks d1 d2).2 * 3) 1 < 1 / 20
  rw [decide_eq_true_iff, min_lt_iff]
  constructor
  · exact Or.inl
  · rintro (h | h)
    · exact h
    · linarith

/-! ### Claim C4 -/

/-- Claim C4 as stated is refuted at a question text containing both the
select-all phrase and a free-text phrase: the classifier checks the
free-text phrases before the select-all phrase, so the text is classified
free_text, while the claim resolves the overlap as select_all. -/
theorem C4_counterexample :
    identify_question_type
        "Select all that apply. If you selected \"other\", briefly describe." = "free_text"
    ∧ substrIn "select all that apply"
        ⟨pyLower "Select all that apply. If you selected \"other\", briefly describe."⟩ = true
    ∧ substrIn "consent"
        ⟨pyLower "Select all that apply. If you selected \"other\", briefly describe."⟩ = false
    ∧ "free_text" ≠ "select_all" := by
  refine ⟨by decide, by decide, by decide, by decide⟩

/-- Claim C4, amended: the classifier maps consent texts to skip, then
texts containing one of the three free-text phrases to free_text, then
texts containing the select-all phrase to select_all, and every other text
to multiple_choice; overlaps are resolved in the order consent, free_text,
select_all. -/
theorem C4_classifier_rules (text : String) :
    (substrIn "consent" ⟨pyLower text⟩ = true → identify_question_type text = "skip")
    ∧ (substrIn "consent" ⟨pyLower text⟩ = false
        → (substrIn "briefly describe" ⟨pyLower text⟩
            || substrIn "if you selected \"other\"" ⟨pyLower text⟩
            || substrIn "if you could magically conjure" ⟨pyLower text⟩) = true
        → identify_question_type text = "free_text")
    ∧ (substrIn "consent" ⟨pyLower text⟩ = false
        → (substrIn "briefly describe" ⟨pyLower text⟩
            || substrIn "if you selected \"other\"" ⟨pyLower text⟩
            || substrIn "if you could magically conjure" ⟨pyLower text⟩) = false
        → substrIn "select all that apply" ⟨pyLower text⟩ = true
        → identify_question_type text = "select_all")
    ∧ (substrIn "consent" ⟨pyLower text⟩ = false
        → (substrIn "briefly describe" ⟨pyLower text⟩
            || substrIn "if you selected \"other\"" ⟨pyLower text⟩
            || substrIn "if you could magically conjure" ⟨pyLower text⟩) = false
        → substrIn "select all that apply" ⟨pyLower text⟩ = false
        → identify_question_type text = "multiple_choice") := by
  refine ⟨fun h1 => ?_, fun h1 h2 => ?_, fun h1 h2 h3 => ?_, fun h1 h2 h3 => ?_⟩ <;>
    simp_all [identify_question_type]

/-- Closed instances of the four classifier rules. -/
theorem C4_classifier_rules_witness :
    identify_question_type "Do you consent to participate?" = "skip"
    ∧ identify_question_type "Briefly describe your last trip" = "free_text"
    ∧ identify_question_type "Which tools do you use? Select all that apply." = "select_all"
    ∧ identify_question_type "How old are you?" = "multiple_choice" :=
  ⟨(C4_classifier_rules "Do you consent to participate?").1 (by decide),
   (C4_classifier_rules "Briefly describe your last trip").2.1 (by decide) (by decide),
   (C4_classifier_rules "Which tools do you use? Select all that apply.").2.2.1
     (by decide) (by decide) (by decide),
   (C4_classifier_rules "How old are you?").2.2.2 (by decide) (by decide) (by decide)⟩

/-! ### Claim C9 -/

/-- Claim C9: the multiple-choice counter keeps answers whose lower case
form is "none", while total_responses drops them together with the empty,
"n/a" and "na" answers; on the input with the single answer "None" the
counter total is 1 and total_responses is 0, so the statistics counts can
sum to strictly more than total_responses. -/
theorem C9_none_counted_not_totalled :
    (∀ answers : List String, ∀ a ∈ answers,
      pyLower a = "none".data → a ∈ process_multiple_choice_question answers)
    ∧ (∀ answers : List String,
        totalResponses answers
          = ((process_multiple_choice_question answers).filter
              (fun a => !(pyLower a == "none".data))).length)
    ∧ (process_multiple_choice_question ["None"]).length = 1
    ∧ totalResponses ["None"] = 0
    ∧ totalResponses ["None"] < (process_multiple_choice_question ["None"]).length := by
  refine ⟨?_, ?_, by decide, by decide, by decide⟩
  · intro answers a ha hlow
    have hne : ¬(a = "") := by
      intro he
      rw [he] at hlow
      exact absurd hlow (by decide)
    refine List.mem_filter.mpr ⟨ha, ?_⟩
    have hb : (a == "") = false := beq_eq_false_iff_ne.mpr hne
    rw [hlow, hb]
    decide
  · intro answers
    unfold totalResponses process_multiple_choice_question
    rw [List.filter_filter]
    congr 1
    apply List.filter_congr
    intro x _
    cases h1 : (x == "") <;> cases h2 : (pyLower x == "n/a".data)
      <;> cases h3 : (pyLower x == "na".data) <;> cases h4 : (pyLower x == "none".data)
      <;> simp [h1, h2, h3, h4]

/-- Closed instance of the counting rule of claim C9 at the answer
"None". -/
theorem C9_none_counted_not_totalled_witness :
    "None" ∈ process_multiple_choice_question ["None", "Maps"] :=
  C9_none_counted_not_totalled.1 ["None", "Maps"] "None" (by decide) (by decide)

/-! ### Claim C10 -/

/-- Claim C10: each ranking answer is counted toward every prototype whose
exact name occurs in it as a substring, so the recorded total is the sum
over answers of the number of prototype names mentioned; the recorded
total_responses is the sum of the three counts, it exceeds the number of
respondents on an answer naming two prototypes, and an answer naming no
prototype contributes to no count. -/
theorem C10_ranking_substring_counts :
    (∀ answers : List String,
      ranking_total answers
        = (answers.map (fun a =>
            (if substrIn "Prototype A" a then 1 else 0)
            + (if substrIn "Prototype B" a then 1 else 0)
            + (if substrIn "Prototype C" a then 1 else 0))).sum)
    ∧ ranking_counts ["I rank Prototype A above Prototype B"] = (1, 1, 0)
    ∧ ranking_total ["I rank Prototype A above Prototype B"] = 2
    ∧ (["I rank Prototype A above Prototype B"] : List String).length
        < ranking_total ["I rank Prototype A above Prototype B"]
    ∧ ranking_counts ["no preference"] = (0, 0, 0)
    ∧ ranking_total ["no preference"] = 0 := by
  refine ⟨?_, by decide, by decide, by decide, by decide, by decide⟩
  intro answers
  unfold ranking_total ranking_counts countMentions
  rw [length_filter_eq_sum_ite, length_filter_eq_sum_ite, length_filter_eq_sum_ite]
  exact sum_map_add3 answers _ _ _

/-! ### Claim C8 -/

/-- Claim C8: for a question text that contains the trip phrase and
neither of the times variants, the bar-chart ordering with zero filling is
exactly the fixed trip bucket sequence, each bucket paired with its count
in the data or zero when absent. -/
theorem C8_trip_bucket_order (data : List (String × ℕ)) (question_text : String)
    (h1 : substrIn "how many trips" ⟨pyLower question_text⟩ = true)
    (h2 : substrIn "how many times" ⟨pyLower question_text⟩ = false)
    (h3 : substrIn "away from your home city" ⟨pyLower question_text⟩ = false) :
    order_data_for_chart data question_text true
      = tripsOrder.map (fun b => (b, (List.lookup b data).getD 0))
    ∧ (order_data_for_chart data question_text true).map Prod.fst = tripsOrder := by
  have horder : order_data_for_chart data question_text true
      = tripsOrder.map (fun b => (b, (List.lookup b data).getD 0)) := by
    simp [order_data_for_chart, get_custom_order, h1, h2, h3]
  refine ⟨horder, ?_⟩
  rw [horder, List.map_map]
  rfl

/-- Closed instance of claim C8: one bucket present, four filled with
zero, in the fixed order. -/
theorem C8_trip_bucket_order_witness :
    order_data_for_chart [("3-5 trips", 4)] "How many trips did you take last year?" true
      = [("0 trips", 0), ("1-2 trips", 0), ("3-5 trips", 4), ("6-10 trips", 0),
         ("11+ trips", 0)] := by
  have h := C8_trip_bucket_order [("3-5 trips", 4)] "How many trips did you take last year?"
    (by decide) (by decide) (by decide)
  rw [h.1]
  decide

/-! ### Claim C5 -/

/-- Claim C5 as stated is refuted at a mapping with exactly eight
categories: the source collapses only when more than eight remain, so all
eight categories are rendered, the eighth one beyond the cap of seven is
not collapsed, and no Other slice appears. -/
theorem C5_counterexample :
    ([("a", 9), ("b", 8), ("c", 7), ("d", 6), ("e", 5), ("f", 4), ("g", 3),
      ("h", 2)] : List (String × ℕ)).length = 8
    ∧ create_pie_chart_data
        [("a", 9), ("b", 8), ("c", 7), ("d", 6), ("e", 5), ("f", 4), ("g", 3), ("h", 2)] ""
      = [("a", 9), ("b", 8), ("c", 7), ("d", 6), ("e", 5), ("f", 4), ("g", 3), ("h", 2)]
    ∧ ("h", 2) ∈ create_pie_chart_data
        [("a", 9), ("b", 8), ("c", 7), ("d", 6), ("e", 5), ("f", 4), ("g", 3), ("h", 2)] ""
    ∧ ∀ kv ∈ create_pie_chart_data
        [("a", 9), ("b", 8), ("c", 7), ("d", 6), ("e", 5), ("f", 4), ("g", 3), ("h", 2)] "",
        kv.1 ≠ "Other Categories" := by
  refine ⟨by decide, by decide, by decide, by decide⟩

/-- Claim C5, amended: the pie data always has at most eight entries;
when the ordered data has more than eight categories the top seven are
kept and the remainder is collected under the key Other Categories
whenever its total is positive, and otherwise the ordered data is rendered
unchanged. -/
theorem C5_pie_cap (data : List (String × ℕ)) (q : String) :
    (create_pie_chart_data data q).length ≤ 8
    ∧ (8 < (order_data_for_chart data q false).length →
        create_pie_chart_data data q
          = if 0 < (((order_data_for_chart data q false).map Prod.snd).drop 7).sum then
              dictSet ((order_data_for_chart data q false).take 7) "Other Categories"
                (((order_data_for_chart data q false).map Prod.snd).drop 7).sum
            else (order_data_for_chart data q false).take 7)
    ∧ (¬ 8 < (order_data_for_chart data q false).length →
        create_pie_chart_data data q = order_data_for_chart data q false) := by
  refine ⟨?_, fun hgt => ?_, fun hle => ?_⟩
  · simp only [create_pie_chart_data]
    split
    · split
      · calc (dictSet ((order_data_for_chart data q false).take 7) "Other Categories"
              (((order_data_for_chart data q false).map Prod.snd).drop 7).sum).length
            ≤ ((order_data_for_chart data q false).take 7).length + 1 := dictSet_length_le _ _ _
          _ ≤ 7 + 1 := by simp [List.length_take]
          _ ≤ 8 := le_refl 8
      · calc ((order_data_for_chart data q false).take 7).length
            ≤ 7 := by simp [List.length_take]
          _ ≤ 8 := by omega
    · omega
  · simp only [create_pie_chart_data]
    rw [if_pos hgt]
  · simp only [create_pie_chart_data]
    rw [if_neg hle]

/-- Closed instance of the amended claim C5 at a nine-category mapping:
the result keeps the top seven categories, adds the Other slice, and stays
within eight slices. -/
theorem C5_pie_cap_witness :
    (create_pie_chart_data
      [("a", 9), ("b", 8), ("c", 7), ("d", 6), ("e", 5), ("f", 4), ("g", 3), ("h", 2),
       ("i", 1)] "").length ≤ 8
    ∧ create_pie_chart_data
        [("a", 9), ("b", 8), ("c", 7), ("d", 6), ("e", 5), ("f", 4), ("g", 3), ("h", 2),
         ("i", 1)] ""
      = [("a", 9), ("b", 8), ("c", 7), ("d", 6), ("e", 5), ("f", 4), ("g", 3),
         ("Other Categories", 3)] := by
  refine ⟨(C5_pie_cap _ "").1, ?_⟩
  have h := (C5_pie_cap [("a", 9), ("b", 8), ("c", 7), ("d", 6), ("e", 5), ("f", 4), ("g", 3),
    ("h", 2), ("i", 1)] "").2.1 (by decide)
  rw [h]
  decide

/-! ### Claim C6 -/

/-- Claim C6 as stated is refuted at the singleton answer list with the
value 3: the list parses to one integer in range and the mean lies in
range, but np.std with ddof 1 divides by zero and yields NaN, which is not
a non-negative number. -/
theorem C6_counterexample :
    numeric_answers ["3"] = [3]
    ∧ toRatList (numeric_answers ["3"]) ≠ []
    ∧ (∀ x ∈ toRatList (numeric_answers ["3"]), 1 ≤ x ∧ x ≤ 5)
    ∧ 1 ≤ npMean (toRatList (numeric_answers ["3"]))
    ∧ npMean (toRatList (numeric_answers ["3"])) ≤ 5
    ∧ ¬ stdNonneg (toRatList (numeric_answers ["3"])) := by
  have hn : numeric_answers ["3"] = [3] := by decide
  rw [hn]
  have hl : toRatList [3] = [(3 : ℚ)] := by
    simp [toRatList]
  rw [hl]
  have hm : npMean [(3 : ℚ)] = 3 := by
    simp [npMean]
  refine ⟨rfl, by simp, ?_, by rw [hm]; norm_num, by rw [hm]; norm_num, ?_⟩
  · intro x hx
    simp at hx
    rw [hx]
    norm_num
  · rintro ⟨v, hv, _⟩
    simp [npSampleVar] at hv

/-- Claim C6, amended: whenever at least one answer parses, the computed
mean lies in the interval from 1 to 5; whenever at least two answers
parse, the sample standard deviation with ddof 1 is a well defined
non-negative number; with exactly one parsed answer it is NaN. -/
theorem C6_likert_stats (answers : List String)
    (hb : ∀ x ∈ toRatList (numeric_answers answers), 1 ≤ x ∧ x ≤ 5) :
    (numeric_answers answers ≠ [] →
      1 ≤ npMean (toRatList (numeric_answers answers))
      ∧ npMean (toRatList (numeric_answers answers)) ≤ 5)
    ∧ (2 ≤ (numeric_answers answers).length →
        stdNonneg (toRatList (numeric_answers answers))) := by
  constructor
  · intro hne
    refine npMean_bounds _ ?_ hb
    simp only [toRatList, ne_eq, List.map_eq_nil]
    exact hne
  · intro h2
    refine npSampleVar_nonneg _ ?_
    simpa only [toRatList, List.length_map] using h2

/-- Closed instance of the amended claim C6 at the answers 3 and 4. -/
theorem C6_likert_stats_witness :
    1 ≤ npMean (toRatList (numeric_answers ["3", "4"]))
    ∧ npMean (toRatList (numeric_answers ["3", "4"])) ≤ 5
    ∧ stdNonneg (toRatList (numeric_answers ["3", "4"])) := by
  have hb : ∀ x ∈ toRatList (numeric_answers ["3", "4"]), 1 ≤ x ∧ x ≤ 5 := by
    have hn : numeric_answers ["3", "4"] = [3, 4] := by decide
    rw [hn]
    intro x hx
    simp [toRatList] at hx
    rcases hx with h | h <;> rw [h] <;> norm_num
  have h := C6_likert_stats ["3", "4"] hb
  have hm := h.1 (by decide)
  exact ⟨hm.1, hm.2, h.2 (by decide)⟩

/-! ### Claim C3 -/

/-- Claim C3: every pairwise result records the adjusted p-value as the
triple of the raw p-value capped at one; when the raw p-value lies in the
unit interval the adjusted value is at least the raw value and at most
one, and the significance flag holds exactly when the adjusted p-value is
below 0.05. -/
theorem C3_bonferroni (ks : List ℤ → List ℤ → ℚ × ℚ)
    (hks : ∀ d1 d2, 0 ≤ (ks d1 d2).2 ∧ (ks d1 d2).2 ≤ 1)
    (ld : Prototype → String → List ℤ) (omnibus : List (String × OmnibusResult))
    (q : String) (es : List ((Prototype × Prototype) × PairwiseResult))
    (e : (Prototype × Prototype) × PairwiseResult)
    (hq : (q, es) ∈ perform_pairwise_ks_tests ks ld omnibus) (he : e ∈ es) :
    e.2.adjusted_p_value = min (e.2.p_value * 3) 1
    ∧ e.2.p_value ≤ e.2.adjusted_p_value
    ∧ e.2.adjusted_p_value ≤ 1
    ∧ (e.2.significant = true ↔ e.2.adjusted_p_value < 1 / 20) := by
  obtain ⟨qr, _, hqr⟩ := List.mem_filterMap.mp hq
  by_cases hs : qr.2.significant = true
  · rw [if_pos hs] at hqr
    obtain ⟨hq1, hq2⟩ := Prod.mk.injEq .. ▸ Option.some.injEq _ _ ▸ hqr
    subst hq2
    obtain ⟨pq, _, hpq⟩ := List.mem_map.mp he
    rw [← hpq]
    exact ks_pair_props ks _ _ (hks _ _).1 (hks _ _).2
  · rw [if_neg hs] at hqr
    exact absurd hqr (by simp)

/-- Closed instance of claim C3 on a significant omnibus entry with a
two-sample test returning the raw p-value one half. -/
theorem C3_bonferroni_witness :
    ((Prototype.A, Prototype.B),
        ks_pair_result (fun _ _ => ((0 : ℚ), 1 / 2)) [] []).2.p_value
      ≤ ((Prototype.A, Prototype.B),
        ks_pair_result (fun _ _ => ((0 : ℚ), 1 / 2)) [] []).2.adjusted_p_value
    ∧ ((Prototype.A, Prototype.B),
        ks_pair_result (fun _ _ => ((0 : ℚ), 1 / 2)) [] []).2.adjusted_p_value ≤ 1 := by
  have h := C3_bonferroni (fun _ _ => ((0 : ℚ), 1 / 2))
    (fun _ _ => ⟨by norm_num, by norm_num⟩) (fun _ _ => [])
    [("q", { chi2 := some 0, p_value := 0, dof := 2, significant := true,
             contingency_table := [], note := none })]
    "q" _ _ (List.mem_singleton.mpr rfl) (List.mem_cons_self _ _)
  exact ⟨h.2.1, h.2.2.1⟩

/-! ### Claim C1 -/

lemma omnibus_significant_iff (pval : ℚ → ℕ → ℚ) (groups : List (List ℤ)) :
    (omnibusFromGroups pval groups).significant = true
      ↔ (omnibusFromGroups pval groups).p_value < 1 / 20 := by
  simp only [omnibusFromGroups]
  split
  · split
    · simp only [decide_eq_true_iff]
    · simp only [Bool.false_eq_true, false_iff, not_lt]
      norm_num
  · simp only [Bool.false_eq_true, false_iff, not_lt]
    norm_num

/-- Claim C1: a question has an entry in the pairwise results exactly when
it is one of the questions and its omnibus result carries the significance
flag, and every omnibus result carries the flag exactly when its p-value
is below 0.05; in particular a question whose omnibus result is not
significant, the placeholder cases included, has no pairwise entry. -/
theorem C1_pairwise_iff_significant (pval : ℚ → ℕ → ℚ) (ks : List ℤ → List ℤ → ℚ × ℚ)
    (ld : Prototype → String → List ℤ) (questions : List String) (q : String) :
    ((∃ es, (q, es) ∈ perform_pairwise_ks_tests ks ld
        (perform_chi_squared_omnibus pval questions ld))
      ↔ q ∈ questions
        ∧ (omnibusFromGroups pval (protoList.map (fun p => ld p q))).significant = true)
    ∧ ∀ r, (q, r) ∈ perform_chi_squared_omnibus pval questions ld →
        (r.significant = true ↔ r.p_value < 1 / 20) := by
  constructor
  · constructor
    · rintro ⟨es, hes⟩
      obtain ⟨qr, hqr, hite⟩ := List.mem_filterMap.mp hes
      by_cases hs : qr.2.significant = true
      · rw [if_pos hs] at hite
        obtain ⟨hq1, _⟩ := Prod.mk.injEq .. ▸ Option.some.injEq _ _ ▸ hite
        obtain ⟨q', hq', hmk⟩ := List.mem_map.mp hqr
        have hq2 : q' = q := by rw [← hmk] at hq1; exact hq1
        subst hq2
        refine ⟨hq', ?_⟩
        rw [← hmk] at hs
        exact hs
      · rw [if_neg hs] at hite
        exact absurd hite (by simp)
    · rintro ⟨hq, hsig⟩
      refine ⟨pairsList.map (fun pq => (pq, ks_pair_result ks (ld pq.1 q) (ld pq.2 q))), ?_⟩
      refine List.mem_filterMap.mpr
        ⟨(q, omnibusFromGroups pval (protoList.map (fun p => ld p q))), ?_, ?_⟩
      · exact List.mem_map.mpr ⟨q, hq, rfl⟩
      · rw [if_pos hsig]
  · intro r hr
    obtain ⟨q', _, hmk⟩ := List.mem_map.mp hr
    have hr2 : r = omnibusFromGroups pval (protoList.map (fun p => ld p q')) := by
      have := congrArg Prod.snd hmk
      simpa using this.symm
    rw [hr2]
    exact omnibus_significant_iff pval _

/-- Closed instance of claim C1: with a survival function returning zero
the omnibus test is significant and the question receives a pairwise
entry. -/
theorem C1_pairwise_iff_significant_witness :
    ∃ es, ("q", es) ∈ perform_pairwise_ks_tests (fun _ _ => ((0 : ℚ), 1))
      (fun _ _ => ([1, 2] : List ℤ))
      (perform_chi_squared_omnibus (fun _ _ => (0 : ℚ)) ["q"] (fun _ _ => ([1, 2] : List ℤ))) :=
  (C1_pairwise_iff_significant (fun _ _ => (0 : ℚ)) (fun _ _ => ((0 : ℚ), 1))
      (fun _ _ => ([1, 2] : List ℤ)) ["q"] "q").1.mpr
    ⟨by decide,
     (show (omnibusFromGroups (fun _ _ => (0 : ℚ))
          (protoList.map (fun _ => ([1, 2] : List ℤ)))).significant
        = decide ((0 : ℚ) < 1 / 20) from rfl).trans (decide_eq_true (by norm_num))⟩

/-! ### Claim C2 -/

/-- Claim C2: the omnibus step keeps exactly the rating columns with a
positive total; when the filtered table is non-empty with positive total
and the test succeeds, the recorded result carries the statistic, its
p-value, the significance flag compared against 0.05 and no remark; in
every other case the result is the placeholder with chi2 recorded as NaN,
p-value one, the significance flag cleared and an explanatory remark; and
the run produces one result for every question, never an error. -/
theorem C2_omnibus_guard (pval : ℚ → ℕ → ℚ) (groups : List (List ℤ)) :
    nonZeroCols (groups.map likertRow)
      = (List.finRange 5).filter (fun j => 0 < colSum (groups.map likertRow) j)
    ∧ (∀ c p d,
        (0 < (groups.map likertRow).length * (nonZeroCols (groups.map likertRow)).length
          ∧ 0 < gridTotal (groups.map likertRow) (nonZeroCols (groups.map likertRow))) →
        chi2_contingency pval (groups.map likertRow) (nonZeroCols (groups.map likertRow))
          = some (c, p, d) →
        omnibusFromGroups pval groups
          = { chi2 := some c, p_value := p, dof := d, significant := decide (p < 1 / 20),
              contingency_table := groups.map likertRow, note := none })
    ∧ ((¬(0 < (groups.map likertRow).length * (nonZeroCols (groups.map likertRow)).length
          ∧ 0 < gridTotal (groups.map likertRow) (nonZeroCols (groups.map likertRow)))
        ∨ chi2_contingency pval (groups.map likertRow) (nonZeroCols (groups.map likertRow))
          = none) →
        (omnibusFromGroups pval groups).chi2 = none
        ∧ (omnibusFromGroups pval groups).p_value = 1
        ∧ (omnibusFromGroups pval groups).significant = false
        ∧ (omnibusFromGroups pval groups).note.isSome = true)
    ∧ ∀ (questions : List String) (ld : Prototype → String → List ℤ),
        (perform_chi_squared_omnibus pval questions ld).length = questions.length := by
  refine ⟨rfl, ?_, ?_, ?_⟩
  · intro c p d hguard hchi
    simp only [omnibusFromGroups]
    rw [if_pos hguard, hchi]
  · intro hdeg
    rcases hdeg with hng | hchi
    · simp only [omnibusFromGroups]
      rw [if_neg hng]
      exact ⟨rfl, rfl, rfl, rfl⟩
    · by_cases hguard : (0 < (groups.map likertRow).length
          * (nonZeroCols (groups.map likertRow)).length
        ∧ 0 < gridTotal (groups.map likertRow) (nonZeroCols (groups.map likertRow)))
      · simp only [omnibusFromGroups]
        rw [if_pos hguard, hchi]
        exact ⟨rfl, rfl, rfl, rfl⟩
      · simp only [omnibusFromGroups]
        rw [if_neg hguard]
        exact ⟨rfl, rfl, rfl, rfl⟩
  · intro questions ld
    exact List.length_map _ _

/-- Closed instances of claim C2: a healthy table yields the test result
with the p-value of the survival function and no remark, and a fully
empty table yields the placeholder with p-value one and no significance. -/
theorem C2_omnibus_guard_witness :
    (omnibusFromGroups (fun _ _ => (0 : ℚ)) [[1, 2], [1, 2], [1, 2]]).p_value = 0
    ∧ (omnibusFromGroups (fun _ _ => (0 : ℚ)) [[1, 2], [1, 2], [1, 2]]).note = none
    ∧ (omnibusFromGroups (fun _ _ => (0 : ℚ)) [[], [], []]).p_value = 1
    ∧ (omnibusFromGroups (fun _ _ => (0 : ℚ)) [[], [], []]).significant = false := by
  have h1 := (C2_omnibus_guard (fun _ _ => (0 : ℚ)) [[1, 2], [1, 2], [1, 2]]).2.1
    (chi2stat (([[1, 2], [1, 2], [1, 2]] : List (List ℤ)).map likertRow)
      (nonZeroCols (([[1, 2], [1, 2], [1, 2]] : List (List ℤ)).map likertRow)))
    0 2 ⟨by decide, by decide⟩ rfl
  have h2 := (C2_omnibus_guard (fun _ _ => (0 : ℚ)) [[], [], []]).2.2.1
    (Or.inl (by decide))
  rw [h1]
  exact ⟨rfl, rfl, h2.2.1, h2.2.2.1⟩

/-! ### Claim C7 -/

lemma perm_any {α : Type} (p : α → Bool) {l₁ l₂ : List α} (h : l₁.Perm l₂) :
    l₁.any p = l₂.any p := by
  cases ha : l₁.any p
  · cases hb : l₂.any p
    · rfl
    · rw [List.any_eq_true] at hb
      rw [List.any_eq_false] at ha
      obtain ⟨x, hx, hpx⟩ := hb
      exact absurd hpx (by simpa using ha x (h.mem_iff.mpr hx))
  · rw [List.any_eq_true] at ha
    obtain ⟨x, hx, hpx⟩ := ha
    rw [eq_comm, List.any_eq_true]
    exact ⟨x, h.mem_iff.mp hx, hpx⟩

lemma colSum_perm {rows rows' : List (Fin 5 → ℕ)} (h : rows.Perm rows') :
    colSum rows = colSum rows' := by
  funext j
  exact List.Perm.sum_eq (List.Perm.map (fun r => r j) h)

lemma gridTotal_perm {rows rows' : List (Fin 5 → ℕ)} (h : rows.Perm rows')
    (cols : List (Fin 5)) : gridTotal rows cols = gridTotal rows' cols := by
  exact List.Perm.sum_eq (List.Perm.map (rowTotal cols) h)

lemma rowContrib_perm {rows rows' : List (Fin 5 → ℕ)} (h : rows.Perm rows')
    (cols : List (Fin 5)) : rowContrib rows cols = rowContrib rows' cols := by
  funext r
  unfold rowContrib expectedFreq
  rw [colSum_perm h, gridTotal_perm h]

lemma chi2stat_perm {rows rows' : List (Fin 5 → ℕ)} (h : rows.Perm rows')
    (cols : List (Fin 5)) : chi2stat rows cols = chi2stat rows' cols := by
  unfold chi2stat
  rw [rowContrib_perm h cols]
  exact (h.map (rowContrib rows' cols)).sum_eq

lemma nonZeroCols_perm {rows rows' : List (Fin 5 → ℕ)} (h : rows.Perm rows') :
    nonZeroCols rows = nonZeroCols rows' := by
  unfold nonZeroCols
  rw [colSum_perm h]

lemma chi2_contingency_perm (pval : ℚ → ℕ → ℚ) {rows rows' : List (Fin 5 → ℕ)}
    (h : rows.Perm rows') (cols : List (Fin 5)) :
    chi2_contingency pval rows cols = chi2_contingency pval rows' cols := by
  simp only [chi2_contingency]
  rw [perm_any _ h, colSum_perm h, h.length_eq, chi2stat_perm h cols]

/-- Claim C7: the omnibus p-value is invariant under any permutation of
the order in which the groups are fed in as rows of the contingency table:
two runs differing only in group order record the same p-value, whatever
survival function turns the statistic into a p-value. -/
theorem C7_omnibus_pvalue_perm (pval : ℚ → ℕ → ℚ) (groups groups' : List (List ℤ))
    (h : groups.Perm groups') :
    (omnibusFromGroups pval groups).p_value = (omnibusFromGroups pval groups').p_value := by
  have hr : (groups.map likertRow).Perm (groups'.map likertRow) := h.map likertRow
  simp only [omnibusFromGroups]
  rw [nonZeroCols_perm hr, hr.length_eq,
    gridTotal_perm hr (nonZeroCols (groups'.map likertRow)),
    chi2_contingency_perm pval hr (nonZeroCols (groups'.map likertRow))]
  by_cases hC : (0 < (groups'.map likertRow).length
        * (nonZeroCols (groups'.map likertRow)).length
      ∧ 0 < gridTotal (groups'.map likertRow) (nonZeroCols (groups'.map likertRow)))
  · rw [if_pos hC, if_pos hC]
    cases chi2_contingency pval (groups'.map likertRow) (nonZeroCols (groups'.map likertRow))
      with
    | none => rfl
    | some v => rfl
  · rw [if_neg hC, if_neg hC]

/-- Closed instance of claim C7 on two opposite orders of three concrete
groups. -/
theorem C7_omnibus_pvalue_perm_witness :
    ([[1, 2], [3], [4, 5]] : List (List ℤ)).Perm [[4, 5], [3], [1, 2]]
    ∧ (omnibusFromGroups (fun c d => c + d) [[1, 2], [3], [4, 5]]).p_value
      = (omnibusFromGroups (fun c d => c + d) [[4, 5], [3], [1, 2]]).p_value :=
  ⟨by decide,
   C7_omnibus_pvalue_perm (fun c d => c + d) [[1, 2], [3], [4, 5]] [[4, 5], [3], [1, 2]]
     (by decide)⟩
